import Mathlib

/-!
Shallow embedding of the deal-pipeline / forecasting / contact-lifecycle core
of the crm-realmkit repository (services in `src/ai-context/02-DEALS.md`):
`DealService.moveDealToStage`, `DealService.updateDealValue`,
`DealService.getRottenDeals`, `DealService.calculateDealValue`,
`ForecastingService.generateForecast`, `ForecastingService.calculateConfidence`,
`ForecastingService.getConversionRates`,
`ContactLifecycleService.progressLifecycleStage`,
`ContactLifecycleService.calculateNextActions`.

Modelling conventions: JavaScript `Date` values are integer milliseconds
(`Time := Int`); JavaScript numbers and Prisma decimals are `Rat`;
`Math.floor` of a quotient of integers is `Int.fdiv`; `Math.round` is
`jsRound` (floor of x + 1/2, which matches JS round-half-toward-positive);
JS record objects keyed by strings are modelled as functions from `String`
(with per-key aggregation written as a filter over the deal list, the same
computation the source itself uses for `averageProbability`); the database
is an explicit `Store` record of lists, and Prisma `where` clauses are list
filters.
-/

namespace CRM

/-- JavaScript Date as integer milliseconds since epoch. -/
abbrev Time := Int

/-- Milliseconds in a day: the source's `1000 * 60 * 60 * 24`. -/
def msPerDay : Int := 1000 * 60 * 60 * 24

/-- The source's `Math.floor((now - past) / msPerDay)` on integer millisecond
timestamps: floor division. -/
def daysBetween (now past : Time) : Int := (now - past).fdiv msPerDay

/-- JavaScript `Math.round`: rounds half toward positive infinity,
equal to `floor (q + 1/2)`. -/
def jsRound (q : Rat) : Int := ⌊q + 1/2⌋

/-- The `LifecycleStage` enum of the Contact module. -/
inductive LifecycleStage where
  | SUBSCRIBER
  | LEAD
  | MARKETING_QUALIFIED
  | SALES_QUALIFIED
  | OPPORTUNITY
  | CUSTOMER
  | EVANGELIST
deriving DecidableEq, Repr, Fintype

/-- The `ContactStatus` enum of the Contact module. -/
inductive ContactStatus where
  | LEAD
  | PROSPECT
  | QUALIFIED
  | CUSTOMER
  | INACTIVE
  | UNQUALIFIED
deriving DecidableEq, Repr

instance : BEq LifecycleStage := instBEqOfDecidableEq

/-- Contact record (only the fields the lifecycle engine reads/writes).
`dealsCount` stands for `contact.deals?.length`. -/
structure Contact where
  id : String
  lifecycleStage : LifecycleStage
  status : ContactStatus
  lastContactedAt : Option Time
  dealsCount : Nat
deriving DecidableEq, Repr

/-- Error taxonomy: `NotFoundError(entity)` and the
`CRMError(..., INVALID_PROGRESSION)` thrown by the lifecycle service. -/
inductive CRMErr where
  | NotFound (entity : String)
  | InvalidProgression (src dst : LifecycleStage)
deriving DecidableEq, Repr

/-- `ContactLifecycleService.isValidProgression`: the fixed `progressionMap`
from the source, with `progressionMap[current]?.includes(next) || false`. -/
def isValidProgression (current next : LifecycleStage) : Bool :=
  let allowed : List LifecycleStage :=
    match current with
    | .SUBSCRIBER => [.LEAD]
    | .LEAD => [.MARKETING_QUALIFIED, .SALES_QUALIFIED]
    | .MARKETING_QUALIFIED => [.SALES_QUALIFIED, .LEAD]
    | .SALES_QUALIFIED => [.OPPORTUNITY, .MARKETING_QUALIFIED]
    | .OPPORTUNITY => [.CUSTOMER, .SALES_QUALIFIED]
    | .CUSTOMER => [.EVANGELIST]
    | .EVANGELIST => []
  allowed.contains next

/-- `ContactLifecycleService.mapLifecycleToStatus`: the fixed mapping from
lifecycle stage to derived contact status. -/
def mapLifecycleToStatus : LifecycleStage → ContactStatus
  | .SUBSCRIBER => .LEAD
  | .LEAD => .LEAD
  | .MARKETING_QUALIFIED => .PROSPECT
  | .SALES_QUALIFIED => .QUALIFIED
  | .OPPORTUNITY => .QUALIFIED
  | .CUSTOMER => .CUSTOMER
  | .EVANGELIST => .CUSTOMER

/-- `ContactLifecycleService.progressLifecycleStage`, restricted to an
already-found contact: throws `INVALID_PROGRESSION` when the edge is not in
the graph, otherwise updates `lifecycleStage` and the derived `status`.
(The activity-log append is an external collaborator and carries no state
modelled here.) -/
def progressLifecycleStage (c : Contact) (newStage : LifecycleStage) :
    Except CRMErr Contact :=
  if isValidProgression c.lifecycleStage newStage then
    .ok { c with lifecycleStage := newStage,
                 status := mapLifecycleToStatus newStage }
  else
    .error (.InvalidProgression c.lifecycleStage newStage)

/-- The progression graph exactly as the specification lists it
(spec-side definition, to be compared with `isValidProgression`). -/
def specProgressionEdges : List (LifecycleStage × LifecycleStage) :=
  [(.SUBSCRIBER, .LEAD),
   (.LEAD, .MARKETING_QUALIFIED), (.LEAD, .SALES_QUALIFIED),
   (.MARKETING_QUALIFIED, .SALES_QUALIFIED), (.MARKETING_QUALIFIED, .LEAD),
   (.SALES_QUALIFIED, .OPPORTUNITY), (.SALES_QUALIFIED, .MARKETING_QUALIFIED),
   (.OPPORTUNITY, .CUSTOMER), (.OPPORTUNITY, .SALES_QUALIFIED),
   (.CUSTOMER, .EVANGELIST)]

/-- Claim C3: `progress(c, t)` fails with an InvalidProgression error exactly
when the edge `(c.lifecycleStage, t)` is not in the fixed progression graph
(so CUSTOMER→LEAD and every move out of EVANGELIST fail, and the contact is
unchanged on failure); when the edge exists it succeeds, setting
`lifecycleStage = t` and `status` to the fixed mapping of `t`; in particular
LEAD→SALES_QUALIFIED succeeds and sets status to QUALIFIED. -/
theorem claim3_progression_ok (c : Contact) (t : LifecycleStage) :
    (isValidProgression c.lifecycleStage t = false →
      progressLifecycleStage c t =
        .error (.InvalidProgression c.lifecycleStage t)) ∧
    (isValidProgression c.lifecycleStage t = true →
      progressLifecycleStage c t =
        .ok { c with lifecycleStage := t, status := mapLifecycleToStatus t }) ∧
    (∀ a b, isValidProgression a b = true ↔ (a, b) ∈ specProgressionEdges) ∧
    isValidProgression .CUSTOMER .LEAD = false ∧
    (∀ b, isValidProgression .EVANGELIST b = false) ∧
    isValidProgression .LEAD .SALES_QUALIFIED = true ∧
    mapLifecycleToStatus .SALES_QUALIFIED = .QUALIFIED := by
  refine ⟨fun h => ?_, fun h => ?_, by decide, by decide, by decide,
    by decide, by decide⟩
  · simp [progressLifecycleStage, h]
  · simp [progressLifecycleStage, h]

/-- Witness for C3 at a concrete contact: progressing a LEAD contact to
SALES_QUALIFIED succeeds and sets status to QUALIFIED. -/
theorem claim3_progression_ok_witness :
    isValidProgression LifecycleStage.LEAD LifecycleStage.SALES_QUALIFIED
      = true ∧
    progressLifecycleStage
        { id := "c1", lifecycleStage := .LEAD, status := .LEAD,
          lastContactedAt := none, dealsCount := 0 }
        .SALES_QUALIFIED =
      .ok { id := "c1", lifecycleStage := .SALES_QUALIFIED,
            status := .QUALIFIED, lastContactedAt := none, dealsCount := 0 } :=
  ⟨by decide,
   (claim3_progression_ok
      { id := "c1", lifecycleStage := .LEAD, status := .LEAD,
        lastContactedAt := none, dealsCount := 0 }
      .SALES_QUALIFIED).2.1 (by decide)⟩

/-- `PipelineStage` record (Prisma model `pipeline_stages`). -/
structure PipelineStage where
  id : String
  pipelineId : String
  name : String
  probability : Int
  sortOrder : Int
  rottenDays : Option Int
deriving DecidableEq, Repr

/-- `Deal` record (Prisma model `deals`; only the fields the engines read). -/
structure Deal where
  id : String
  value : Rat
  probability : Int
  pipelineId : String
  stageId : String
  expectedCloseDate : Time
  actualCloseDate : Option Time
  ownerId : String
  ownerName : Option String
  contactId : String
  stageChangedAt : Time
  updatedAt : Time
deriving DecidableEq, Repr

/-- `DealProductInput`: a line item passed to `updateDealValue`.
`discount` is optional; the source reads it as `p.discount || 0`. -/
structure DealProductInput where
  productId : String
  name : String
  quantity : Int
  unitPrice : Rat
  discount : Option Rat
deriving DecidableEq, Repr

/-- `DealProduct` row (Prisma model `deal_products`). -/
structure DealProduct where
  dealId : String
  productId : String
  name : String
  quantity : Int
  unitPrice : Rat
  totalPrice : Rat
  discount : Rat
deriving DecidableEq, Repr

/-- The database, as explicit lists of rows. -/
structure Store where
  deals : List Deal
  stages : List PipelineStage
  dealProducts : List DealProduct
  contacts : List Contact
deriving DecidableEq, Repr

/-- `this.findById(dealId)` for deals. -/
def findDeal (s : Store) (dealId : String) : Option Deal :=
  s.deals.find? (fun d => d.id == dealId)

/-- `db.pipelineStage.findUnique({ where: { id } })`. -/
def findStage (s : Store) (stageId : String) : Option PipelineStage :=
  s.stages.find? (fun st => st.id == stageId)

/-- `contactService.findById(contactId)`. -/
def findContact (s : Store) (contactId : String) : Option Contact :=
  s.contacts.find? (fun c => c.id == contactId)

/-- `DealService.moveDealToStage`: NotFound on missing deal or stage;
otherwise updates `stageId`, `probability` (to the stage's configured
probability), `stageChangedAt`, and — via the two conditional object
spreads in the source — sets `actualCloseDate = now` when the target
stage's name is "Closed Won" or "Closed Lost", leaving it unchanged
otherwise. Returns the new store and the updated deal. -/
def moveDealToStage (s : Store) (dealId stageId : String) (now : Time) :
    Except CRMErr (Store × Deal) :=
  match findDeal s dealId with
  | none => .error (.NotFound "Deal")
  | some deal =>
    match findStage s stageId with
    | none => .error (.NotFound "Pipeline stage")
    | some newStage =>
      let afterWon :=
        if newStage.name == "Closed Won" then some now
        else deal.actualCloseDate
      let afterLost :=
        if newStage.name == "Closed Lost" then some now else afterWon
      let updated := { deal with
        stageId := stageId,
        probability := newStage.probability,
        stageChangedAt := now,
        actualCloseDate := afterLost }
      let s2 := { s with
        deals := s.deals.map (fun d => if d.id == dealId then updated else d) }
      .ok (s2, updated)

/-- `DealService.calculateDealValue`: reduce over line items of
`subtotal - subtotal * (discount || 0) / 100` with
`subtotal = quantity * unitPrice`. -/
def calculateDealValue (products : List DealProductInput) : Rat :=
  products.foldl
    (fun total product =>
      let subtotal : Rat := (product.quantity : Rat) * product.unitPrice
      let discount : Rat := subtotal * (product.discount.getD 0) / 100
      total + (subtotal - discount))
    0

/-- The rows inserted by `updateDealValue`'s `createMany` call, one per
input line item, carrying the source's `totalPrice` formula
`quantity * unitPrice * ((100 - (discount || 0)) / 100)`. -/
def insertedProducts (dealId : String) (products : List DealProductInput) :
    List DealProduct :=
  products.map (fun p =>
    { dealId := dealId,
      productId := p.productId,
      name := p.name,
      quantity := p.quantity,
      unitPrice := p.unitPrice,
      totalPrice :=
        (p.quantity : Rat) * p.unitPrice * ((100 - p.discount.getD 0) / 100),
      discount := p.discount.getD 0 })

/-- `DealService.updateDealValue`: NotFound on missing deal; otherwise, in
one transaction, deletes the deal's existing `DealProduct` rows, inserts one
row per input line item (with the source's `totalPrice` formula
`quantity * unitPrice * ((100 - discount) / 100)`), and sets the deal's
`value` to `calculateDealValue products`. -/
def updateDealValue (s : Store) (dealId : String)
    (products : List DealProductInput) : Except CRMErr (Store × Deal) :=
  match findDeal s dealId with
  | none => .error (.NotFound "Deal")
  | some deal =>
    let newValue := calculateDealValue products
    let remaining := s.dealProducts.filter (fun p => !(p.dealId == dealId))
    let inserted := insertedProducts dealId products
    let updated := { deal with value := newValue }
    let s2 := { s with
      dealProducts := remaining ++ inserted,
      deals := s.deals.map (fun d => if d.id == dealId then updated else d) }
    .ok (s2, updated)

/-- The Prisma `where` clause of `getRottenDeals`: open deals
(`actualCloseDate: null`) whose stage has `rottenDays: { not: null }`,
optionally restricted to one owner. -/
def rottenWhere (s : Store) (ownerId : Option String) (d : Deal) : Bool :=
  d.actualCloseDate.isNone &&
  (match findStage s d.stageId with
   | some st => st.rottenDays.isSome
   | none => false) &&
  (match ownerId with
   | some o => d.ownerId == o
   | none => true)

/-- The in-memory filter of `getRottenDeals`:
`deal.stage.rottenDays && daysSinceStageChange > deal.stage.rottenDays`.
JavaScript truthiness makes both `null` and `0` fail the first conjunct. -/
def rottenFilter (s : Store) (now : Time) (d : Deal) : Bool :=
  match findStage s d.stageId with
  | some st =>
    match st.rottenDays with
    | some r => !(r == 0) && decide (daysBetween now d.stageChangedAt > r)
    | none => false
  | none => false

/-- `DealService.getRottenDeals`: database `where` clause followed by the
in-memory staleness filter. Read-only. -/
def getRottenDeals (s : Store) (ownerId : Option String) (now : Time) :
    List Deal :=
  (s.deals.filter (rottenWhere s ownerId)).filter (rottenFilter s now)

/-- Fixture: a non-terminal pipeline stage. -/
def exStageOpen : PipelineStage :=
  { id := "s1", pipelineId := "p1", name := "Qualified", probability := 30,
    sortOrder := 0, rottenDays := none }

/-- Fixture: the terminal "Closed Won" stage. -/
def exStageWon : PipelineStage :=
  { id := "s2", pipelineId := "p1", name := "Closed Won", probability := 100,
    sortOrder := 1, rottenDays := none }

/-- Fixture: an open deal sitting in `exStageOpen`. -/
def exDeal : Deal :=
  { id := "d1", value := 1000, probability := 30, pipelineId := "p1",
    stageId := "s1", expectedCloseDate := 0, actualCloseDate := none,
    ownerId := "o1", ownerName := some "Ann", contactId := "c1",
    stageChangedAt := 0, updatedAt := 0 }

/-- Fixture: a store holding `exDeal` and the two stages above. -/
def exStore : Store :=
  { deals := [exDeal], stages := [exStageOpen, exStageWon],
    dealProducts := [], contacts := [] }

/-- Claim C2: for every existing deal d and existing target stage s,
`moveToStage(d, s)` sets `stageId` to s, `probability` to s's configured
default probability, and `stageChangedAt` to the call time; it sets
`actualCloseDate` to the call time exactly when s's name is "Closed Won" or
"Closed Lost", and otherwise leaves `actualCloseDate` unchanged (a
previously set `actualCloseDate` is never cleared by moving to a
non-terminal stage). -/
theorem claim2_moveToStage (s : Store) (dealId stageId : String) (now : Time)
    (d : Deal) (st : PipelineStage)
    (hd : findDeal s dealId = some d) (hs : findStage s stageId = some st) :
    ∃ s2 u, moveDealToStage s dealId stageId now = .ok (s2, u) ∧
      u.stageId = stageId ∧ u.probability = st.probability ∧
      u.stageChangedAt = now ∧
      u.actualCloseDate =
        (if st.name = "Closed Won" ∨ st.name = "Closed Lost" then some now
         else d.actualCloseDate) := by
  unfold moveDealToStage
  rw [hd, hs]
  refine ⟨_, _, rfl, rfl, rfl, rfl, ?_⟩
  by_cases h1 : st.name = "Closed Lost" <;>
    by_cases h2 : st.name = "Closed Won" <;>
      simp [h1, h2]

/-- Witness for C2 at a concrete store: moving `exDeal` to the
"Closed Won" stage at time 777 updates all four fields. -/
theorem claim2_moveToStage_witness :
    findDeal exStore "d1" = some exDeal ∧
    findStage exStore "s2" = some exStageWon ∧
    (∃ s2 u, moveDealToStage exStore "d1" "s2" 777 = .ok (s2, u) ∧
      u.stageId = "s2" ∧ u.probability = exStageWon.probability ∧
      u.stageChangedAt = 777 ∧
      u.actualCloseDate =
        (if exStageWon.name = "Closed Won" ∨ exStageWon.name = "Closed Lost"
         then some 777 else exDeal.actualCloseDate)) :=
  ⟨rfl, rfl,
   claim2_moveToStage exStore "d1" "s2" 777 exDeal exStageWon rfl rfl⟩

/-- Fixture: a stage whose `rottenDays` threshold is the integer 0
(allowed by the schema, where `rottenDays` is a nullable Int). -/
def exStageRotten0 : PipelineStage :=
  { id := "s3", pipelineId := "p1", name := "Stalled", probability := 10,
    sortOrder := 2, rottenDays := some 0 }

/-- Fixture: an open deal that has sat in `exStageRotten0` since time 0. -/
def exDealStale : Deal :=
  { id := "d2", value := 500, probability := 10, pipelineId := "p1",
    stageId := "s3", expectedCloseDate := 0, actualCloseDate := none,
    ownerId := "o1", ownerName := none, contactId := "c1",
    stageChangedAt := 0, updatedAt := 0 }

/-- Fixture: store for the rotten-deal counterexample. -/
def exStoreRotten : Store :=
  { deals := [exDealStale], stages := [exStageRotten0],
    dealProducts := [], contacts := [] }

/-- Counterexample to claim C4 as stated: `exDealStale` is open, its stage's
`rottenDays` is non-null (it is 0), and it has been in the stage for 10 days
(10 > 0), so the claim's three-part characterization says it must be
returned — yet `getRottenDeals` returns the empty list, because the
in-memory filter `deal.stage.rottenDays && ...` treats the number 0 as
falsy. -/
theorem claim4_counterexample :
    exDealStale ∈ exStoreRotten.deals ∧
    exDealStale.actualCloseDate = none ∧
    findStage exStoreRotten exDealStale.stageId = some exStageRotten0 ∧
    exStageRotten0.rottenDays = some 0 ∧
    daysBetween (10 * msPerDay) exDealStale.stageChangedAt > 0 ∧
    getRottenDeals exStoreRotten none (10 * msPerDay) = [] := by
  decide

/-- Claim C4 (amended): `getRottenDeals` returns exactly the deals
(optionally restricted to the given owner) satisfying: `actualCloseDate` is
null, the current stage's `rottenDays` is non-null AND non-zero (JavaScript
truthiness makes a 0 threshold behave like null in the staleness filter),
and floor((now − stageChangedAt) / 1 day) > rottenDays; in particular it
never returns a deal with a non-null `actualCloseDate` and never returns a
deal whose stage has `rottenDays == null`, and it mutates no state. -/
theorem claim4_rotten_amended (s : Store) (ownerId : Option String)
    (now : Time) (d : Deal) :
    d ∈ getRottenDeals s ownerId now ↔
      d ∈ s.deals ∧ d.actualCloseDate = none ∧
      (∀ o, ownerId = some o → d.ownerId = o) ∧
      (∃ st r, findStage s d.stageId = some st ∧ st.rottenDays = some r ∧
        r ≠ 0 ∧ r < daysBetween now d.stageChangedAt) := by
  have howner : (match ownerId with
      | some o => d.ownerId == o
      | none => true) = true ↔ (∀ o, ownerId = some o → d.ownerId = o) := by
    cases ownerId <;> simp
  have hfilter : rottenFilter s now d = true ↔
      (∃ st r, findStage s d.stageId = some st ∧ st.rottenDays = some r ∧
        r ≠ 0 ∧ r < daysBetween now d.stageChangedAt) := by
    unfold rottenFilter
    cases hst : findStage s d.stageId with
    | none => simp
    | some st =>
      cases hr : st.rottenDays with
      | none => simp [hr]
      | some r => simp [hr, gt_iff_lt, and_assoc]
  constructor
  · intro h
    rw [getRottenDeals, List.mem_filter] at h
    obtain ⟨h1, hf⟩ := h
    rw [List.mem_filter] at h1
    obtain ⟨hmem, hw⟩ := h1
    unfold rottenWhere at hw
    rw [Bool.and_eq_true, Bool.and_eq_true] at hw
    exact ⟨hmem, Option.isNone_iff_eq_none.mp hw.1.1, howner.mp hw.2,
      hfilter.mp hf⟩
  · rintro ⟨hmem, hacd, how, hex⟩
    rw [getRottenDeals, List.mem_filter]
    refine ⟨?_, hfilter.mpr hex⟩
    rw [List.mem_filter]
    refine ⟨hmem, ?_⟩
    unfold rottenWhere
    rw [Bool.and_eq_true, Bool.and_eq_true]
    obtain ⟨st, r, hst, hr, -, -⟩ := hex
    exact ⟨⟨Option.isNone_iff_eq_none.mpr hacd, by simp [hst, hr]⟩,
      howner.mpr how⟩

/-- Fixture: a stage with a positive `rottenDays` threshold of 5. -/
def exStageRotten5 : PipelineStage :=
  { id := "s4", pipelineId := "p1", name := "Proposal", probability := 50,
    sortOrder := 3, rottenDays := some 5 }

/-- Fixture: an open deal that has sat in `exStageRotten5` for 10 days. -/
def exDealRotten : Deal :=
  { id := "d3", value := 700, probability := 50, pipelineId := "p1",
    stageId := "s4", expectedCloseDate := 0, actualCloseDate := none,
    ownerId := "o1", ownerName := none, contactId := "c1",
    stageChangedAt := 0, updatedAt := 0 }

/-- Fixture: store for the rotten-deal witness. -/
def exStoreRotten2 : Store :=
  { deals := [exDealRotten], stages := [exStageRotten5],
    dealProducts := [], contacts := [] }

/-- Witness for the amended C4 at a concrete store: a 10-day-old deal in a
stage with threshold 5 is reported rotten. -/
theorem claim4_rotten_amended_witness :
    exDealRotten ∈ getRottenDeals exStoreRotten2 none (10 * msPerDay) :=
  (claim4_rotten_amended exStoreRotten2 none (10 * msPerDay)
      exDealRotten).mpr
    ⟨by decide, rfl, fun o ho => Option.noConfusion ho,
     ⟨exStageRotten5, 5, rfl, rfl, by decide, by decide⟩⟩

/-- Value of one line item as the specification states it:
quantity × unitPrice × (1 − discountPercent/100). -/
def lineItemValue (p : DealProductInput) : Rat :=
  (p.quantity : Rat) * p.unitPrice * (1 - p.discount.getD 0 / 100)

/-- The source's reduce in `calculateDealValue` computes exactly the
specification's per-item sum. -/
theorem calculateDealValue_eq_sum (products : List DealProductInput) :
    calculateDealValue products = (products.map lineItemValue).sum := by
  have key : ∀ (l : List DealProductInput) (acc : Rat),
      l.foldl
        (fun total product =>
          let subtotal : Rat := (product.quantity : Rat) * product.unitPrice
          let discount : Rat := subtotal * (product.discount.getD 0) / 100
          total + (subtotal - discount))
        acc
      = acc + (l.map lineItemValue).sum := by
    intro l
    induction l with
    | nil => intro acc; simp
    | cons p t ih =>
      intro acc
      simp only [List.foldl_cons, List.map_cons, List.sum_cons]
      rw [ih]
      simp only [lineItemValue]
      ring
  simpa [calculateDealValue] using key products 0

/-- Fixture: the spec scenario's three line items
(qty 2, price 100, discount 10), (qty 1, price 50, discount 0),
(qty 5, price 20, discount 20). -/
def exThreeItems : List DealProductInput :=
  [{ productId := "pr1", name := "A", quantity := 2, unitPrice := 100,
     discount := some 10 },
   { productId := "pr2", name := "B", quantity := 1, unitPrice := 50,
     discount := some 0 },
   { productId := "pr3", name := "C", quantity := 5, unitPrice := 20,
     discount := some 20 }]

/-- Claim C5: `recalculateValue(dealId, lineItems)` sets `deal.value` to
Σ(quantity × unitPrice × (1 − discountPercent/100)) over the given line
items; in particular, for the three line items (2, 100, 10), (1, 50, 0),
(5, 20, 20) the value becomes exactly 180 + 50 + 80 = 310. -/
theorem claim5_recalculateValue (s : Store) (dealId : String)
    (products : List DealProductInput) (d : Deal)
    (hd : findDeal s dealId = some d) :
    (∃ s2 u, updateDealValue s dealId products = .ok (s2, u) ∧
      u.value = (products.map lineItemValue).sum) ∧
    calculateDealValue exThreeItems = 310 := by
  constructor
  · unfold updateDealValue
    rw [hd]
    exact ⟨_, _, rfl, calculateDealValue_eq_sum products⟩
  · rw [calculateDealValue_eq_sum]
    simp only [exThreeItems, lineItemValue, List.map_cons, List.map_nil,
      List.sum_cons, List.sum_nil, Option.getD_some]
    norm_num

/-- Witness for C5 at a concrete store: recalculating `exDeal`'s value from
the three spec line items yields 310. -/
theorem claim5_recalculateValue_witness :
    findDeal exStore "d1" = some exDeal ∧
    ((∃ s2 u, updateDealValue exStore "d1" exThreeItems = .ok (s2, u) ∧
      u.value = (exThreeItems.map lineItemValue).sum) ∧
    calculateDealValue exThreeItems = 310) :=
  ⟨rfl, claim5_recalculateValue exStore "d1" exThreeItems exDeal rfl⟩

/-- Number of stored line-item rows belonging to a deal. -/
def dealItemCount (s : Store) (dealId : String) : Nat :=
  (s.dealProducts.filter (fun p => p.dealId == dealId)).length

/-- Replacing every deal matching an id by an updated deal with the same id
commutes with `find?` on that id. -/
theorem find_replace (l : List Deal) (dealId : String) (u : Deal)
    (hu : (u.id == dealId) = true) :
    (l.map (fun x => if x.id == dealId then u else x)).find?
        (fun x => x.id == dealId) =
      (l.find? (fun x => x.id == dealId)).map (fun _ => u) := by
  induction l with
  | nil => rfl
  | cons a t ih =>
    cases hb : a.id == dealId with
    | true =>
      have hua : (if a.id == dealId then u else a) = u := by simp [hb]
      simp only [List.map_cons, hua, List.find?_cons, hb]
      simp [hu]
    | false =>
      have hua : (if a.id == dealId then u else a) = a := by simp [hb]
      simp only [List.map_cons, hua, List.find?_cons, hb, ih]
      simp [hb]

/-- After a remove-all-then-insert replacement, the number of rows for the
deal equals the number of inserted items. -/
theorem count_replace (dps : List DealProduct) (dealId : String)
    (products : List DealProductInput) :
    ((dps.filter (fun p => !(p.dealId == dealId)) ++
        insertedProducts dealId products).filter
      (fun p => p.dealId == dealId)).length = products.length := by
  rw [List.filter_append]
  have h1 : (dps.filter (fun p => !(p.dealId == dealId))).filter
      (fun p => p.dealId == dealId) = [] := by
    induction dps with
    | nil => rfl
    | cons a t ih =>
      cases hb : a.dealId == dealId with
      | true => simp [hb, ih]
      | false => simp [hb, ih]
  have h2 : (insertedProducts dealId products).filter
      (fun p => p.dealId == dealId) = insertedProducts dealId products := by
    rw [List.filter_eq_self]
    intro a ha
    obtain ⟨p, hp, rfl⟩ := List.mem_map.mp ha
    simp
  rw [h1, h2]
  simp [insertedProducts]

/-- Claim C6: `recalculateValue` is idempotent in its input: for every deal
and list of line items, calling it twice with the identical list yields the
same `deal.value` after each call, and after each call the deal's stored
line-item set has exactly as many rows as the input list (replace-all-then-
insert never duplicates items). -/
theorem claim6_recalculateValue_idempotent (s : Store) (dealId : String)
    (products : List DealProductInput) (d : Deal)
    (hd : findDeal s dealId = some d) :
    ∃ s1 u1 s2 u2,
      updateDealValue s dealId products = .ok (s1, u1) ∧
      updateDealValue s1 dealId products = .ok (s2, u2) ∧
      u1.value = u2.value ∧
      dealItemCount s1 dealId = products.length ∧
      dealItemCount s2 dealId = products.length := by
  have hd0 : s.deals.find? (fun x => x.id == dealId) = some d := hd
  have hid : (d.id == dealId) = true := by
    have h := List.find?_some hd0
    exact h
  let u1 : Deal := { d with value := calculateDealValue products }
  let s1 : Store := { s with
    dealProducts := s.dealProducts.filter (fun p => !(p.dealId == dealId)) ++
      insertedProducts dealId products,
    deals := s.deals.map (fun x => if x.id == dealId then u1 else x) }
  have h1 : updateDealValue s dealId products = .ok (s1, u1) := by
    unfold updateDealValue
    rw [hd]
  have hfind1 : findDeal s1 dealId = some u1 := by
    show (s.deals.map (fun x => if x.id == dealId then u1 else x)).find?
        (fun x => x.id == dealId) = some u1
    rw [find_replace s.deals dealId u1 hid]
    rw [show s.deals.find? (fun x => x.id == dealId) = some d from hd]
    rfl
  let u2 : Deal := { u1 with value := calculateDealValue products }
  let s2 : Store := { s1 with
    dealProducts := s1.dealProducts.filter (fun p => !(p.dealId == dealId)) ++
      insertedProducts dealId products,
    deals := s1.deals.map (fun x => if x.id == dealId then u2 else x) }
  have h2 : updateDealValue s1 dealId products = .ok (s2, u2) := by
    unfold updateDealValue
    rw [hfind1]
  refine ⟨s1, u1, s2, u2, h1, h2, rfl, ?_, ?_⟩
  · exact count_replace s.dealProducts dealId products
  · exact count_replace s1.dealProducts dealId products

/-- Witness for C6 at a concrete store: two identical recalculations of
`exDeal` from the three spec line items agree and store exactly 3 rows. -/
theorem claim6_recalculateValue_idempotent_witness :
    findDeal exStore "d1" = some exDeal ∧
    (∃ s1 u1 s2 u2,
      updateDealValue exStore "d1" exThreeItems = .ok (s1, u1) ∧
      updateDealValue s1 "d1" exThreeItems = .ok (s2, u2) ∧
      u1.value = u2.value ∧
      dealItemCount s1 "d1" = exThreeItems.length ∧
      dealItemCount s2 "d1" = exThreeItems.length) :=
  ⟨rfl,
   claim6_recalculateValue_idempotent exStore "d1" exThreeItems exDeal rfl⟩

/-- Per-deal adjusted confidence inside
`ForecastingService.calculateConfidence`: starts from `deal.probability` and
applies the source's sequence of compound `*=` updates — every `if` whose
staleness threshold is exceeded multiplies the running value. -/
def dealConfidence (now : Time) (d : Deal) : Rat :=
  let daysSinceUpdate := daysBetween now d.updatedAt
  let c0 : Rat := (d.probability : Rat)
  let c1 := if daysSinceUpdate > 7 then c0 * (8/10) else c0
  let c2 := if daysSinceUpdate > 14 then c1 * (7/10) else c1
  let c3 := if daysSinceUpdate > 30 then c2 * (5/10) else c2
  if daysSinceUpdate ≤ 2 then c3 * (11/10) else c3

/-- `ForecastingService.calculateConfidence`: 0 for an empty deal list, else
`Math.round` of the mean of per-deal confidences clamped to at most 100. -/
def calculateConfidence (now : Time) (deals : List Deal) : Int :=
  if deals.length = 0 then 0
  else
    jsRound ((deals.map (fun d => min (dealConfidence now d) 100)).sum /
      (deals.length : Rat))

/-- The deal selection of `generateForecast`: open deals whose
`expectedCloseDate` lies in the period window, optionally filtered by owner
and/or pipeline. -/
def selectForecastDeals (s : Store) (startDate endDate : Time)
    (ownerId pipelineId : Option String) : List Deal :=
  s.deals.filter (fun d =>
    decide (startDate ≤ d.expectedCloseDate) &&
    decide (d.expectedCloseDate ≤ endDate) &&
    d.actualCloseDate.isNone &&
    (match ownerId with | some o => d.ownerId == o | none => true) &&
    (match pipelineId with | some p => d.pipelineId == p | none => true))

/-- Sum of deal values, as accumulated into `forecast.totalValue`. -/
def totalValue (deals : List Deal) : Rat :=
  (deals.map (fun d => d.value)).sum

/-- Sum of `value * (probability / 100)`, as accumulated into
`forecast.weightedValue`. -/
def weightedValue (deals : List Deal) : Rat :=
  (deals.map (fun d => d.value * ((d.probability : Rat) / 100))).sum

/-- `deal.stage.name` via the stage relation. -/
def stageName (s : Store) (d : Deal) : String :=
  match findStage s d.stageId with
  | some st => st.name
  | none => ""

/-- `deal.owner.name || 'Unassigned'` (empty string is falsy in JS). -/
def ownerDisplayName (d : Deal) : String :=
  match d.ownerName with
  | some n => if n == "" then "Unassigned" else n
  | none => "Unassigned"

/-- Per-stage bucket of a forecast. -/
structure StageMetrics where
  count : Nat
  totalValue : Rat
  weightedValue : Rat
  averageProbability : Rat

/-- Per-owner bucket of a forecast. -/
structure OwnerMetrics where
  count : Nat
  totalValue : Rat
  weightedValue : Rat

/-- The `Forecast` result. The source's string-keyed `byStage` / `byOwner`
records are modelled as functions from the key; per-key aggregation is the
filtered sum, the same computation the source uses for
`averageProbability`. -/
structure Forecast where
  totalValue : Rat
  weightedValue : Rat
  dealCount : Nat
  confidence : Int
  byStage : String → StageMetrics
  byOwner : String → OwnerMetrics

/-- `ForecastingService.generateForecast` over an explicit period window. -/
def generateForecast (s : Store) (startDate endDate : Time)
    (ownerId pipelineId : Option String) (now : Time) : Forecast :=
  let deals := selectForecastDeals s startDate endDate ownerId pipelineId
  { totalValue := totalValue deals,
    weightedValue := weightedValue deals,
    dealCount := deals.length,
    confidence := calculateConfidence now deals,
    byStage := fun name =>
      let bucket := deals.filter (fun d => stageName s d == name)
      { count := bucket.length,
        totalValue := totalValue bucket,
        weightedValue := weightedValue bucket,
        averageProbability :=
          (bucket.map (fun d => (d.probability : Rat))).sum /
            (bucket.length : Rat) },
    byOwner := fun name =>
      let bucket := deals.filter (fun d => ownerDisplayName d == name)
      { count := bucket.length,
        totalValue := totalValue bucket,
        weightedValue := weightedValue bucket } }

/-- Fixture: a probability-50 deal last updated at time 0. -/
def exDealStale20 : Deal :=
  { id := "d4", value := 100, probability := 50, pipelineId := "p1",
    stageId := "s1", expectedCloseDate := 0, actualCloseDate := none,
    ownerId := "o1", ownerName := none, contactId := "c1",
    stageChangedAt := 0, updatedAt := 0 }

/-- Rounding a rational that is already an integer. -/
theorem jsRound_intCast (n : Int) : jsRound (n : Rat) = n := by
  unfold jsRound
  rw [Int.floor_eq_iff]
  constructor
  · linarith
  · linarith

/-- Counterexample to claim C1 as stated: for a deal with probability 50
whose days-since-update is 20, the source multiplies BOTH the ×0.8 and the
×0.7 staleness factors (the updates are compound `*=` assignments, not
overwrites), giving 50 × 0.8 × 0.7 = 28 — not the single-multiplier value
50 × 0.7 = 35 the claim asserts. -/
theorem claim1_counterexample :
    dealConfidence (20 * msPerDay) exDealStale20 = 28 ∧
    (exDealStale20.probability : Rat) * (7/10) = 35 ∧
    calculateConfidence (20 * msPerDay) [exDealStale20] = 28 ∧
    (28 : Rat) ≠ 35 := by
  have hdays : daysBetween (20 * msPerDay) exDealStale20.updatedAt = 20 := by
    decide
  have hdc : dealConfidence (20 * msPerDay) exDealStale20 = 28 := by
    simp only [dealConfidence, hdays]
    norm_num [exDealStale20]
  refine ⟨hdc, by norm_num [exDealStale20], ?_, by norm_num⟩
  unfold calculateConfidence
  rw [if_neg (by simp)]
  simp only [List.map_cons, List.map_nil, List.sum_cons, List.sum_nil, hdc,
    List.length_cons, List.length_nil]
  norm_num
  exact jsRound_intCast 28

/-- Claim C1 (amended): the staleness decay multipliers in the confidence
computation ARE cumulative: every multiplier whose threshold is exceeded is
applied, so a deal whose days-since-update is in (14, 30] contributes
probability × 0.8 × 0.7 (a 20-day-stale deal gives p × 0.56, not p × 0.7),
a deal more than 30 days stale contributes probability × 0.8 × 0.7 × 0.5,
a deal in (7, 14] contributes probability × 0.8, one in (2, 7] contributes
probability unchanged, and one at most 2 days stale contributes
probability × 1.1. -/
theorem claim1_decay_amended (now : Time) (d : Deal) :
    (2 < daysBetween now d.updatedAt ∧ daysBetween now d.updatedAt ≤ 7 →
      dealConfidence now d = (d.probability : Rat)) ∧
    (7 < daysBetween now d.updatedAt ∧ daysBetween now d.updatedAt ≤ 14 →
      dealConfidence now d = (d.probability : Rat) * (8/10)) ∧
    (14 < daysBetween now d.updatedAt ∧ daysBetween now d.updatedAt ≤ 30 →
      dealConfidence now d = (d.probability : Rat) * (8/10) * (7/10)) ∧
    (30 < daysBetween now d.updatedAt →
      dealConfidence now d =
        (d.probability : Rat) * (8/10) * (7/10) * (5/10)) ∧
    (daysBetween now d.updatedAt ≤ 2 →
      dealConfidence now d = (d.probability : Rat) * (11/10)) := by
  refine ⟨fun h => ?_, fun h => ?_, fun h => ?_, fun h => ?_, fun h => ?_⟩ <;>
    · simp only [dealConfidence]
      split_ifs <;> first | rfl | omega

/-- Witness for the amended C1 at a concrete deal: 20 days stale,
probability 50, adjusted confidence 50 × 0.8 × 0.7. -/
theorem claim1_decay_amended_witness :
    14 < daysBetween (20 * msPerDay) exDealStale20.updatedAt ∧
    daysBetween (20 * msPerDay) exDealStale20.updatedAt ≤ 30 ∧
    dealConfidence (20 * msPerDay) exDealStale20 =
      (exDealStale20.probability : Rat) * (8/10) * (7/10) :=
  ⟨by decide, by decide,
   (claim1_decay_amended (20 * msPerDay) exDealStale20).2.2.1
     ⟨by decide, by decide⟩⟩

/-- Each deal's weighted contribution is at most its value when the value
is non-negative and the probability at most 100, so the weighted sum is at
most the total. -/
theorem weightedValue_le_totalValue (deals : List Deal)
    (h : ∀ d ∈ deals, 0 ≤ d.value ∧ d.probability ≤ 100) :
    weightedValue deals ≤ totalValue deals := by
  unfold weightedValue totalValue
  apply List.sum_le_sum
  intro d hd
  obtain ⟨hv, hp⟩ := h d hd
  have hp' : (d.probability : Rat) ≤ 100 := by exact_mod_cast hp
  have h1 : (d.probability : Rat) / 100 ≤ 1 := by linarith
  calc d.value * ((d.probability : Rat) / 100)
      ≤ d.value * 1 := mul_le_mul_of_nonneg_left h1 hv
    _ = d.value := mul_one _

/-- Claim C7: for every forecast generated by `generateForecast` over deals
with non-negative values and probabilities in [0,100],
`weightedValue ≤ totalValue`, and the same inequality holds within every
per-stage and per-owner bucket. -/
theorem claim7_weighted_le_total (s : Store) (startDate endDate : Time)
    (ownerId pipelineId : Option String) (now : Time)
    (h : ∀ d ∈ s.deals,
      0 ≤ d.value ∧ 0 ≤ d.probability ∧ d.probability ≤ 100) :
    (generateForecast s startDate endDate ownerId pipelineId
        now).weightedValue ≤
      (generateForecast s startDate endDate ownerId pipelineId
        now).totalValue ∧
    (∀ name,
      ((generateForecast s startDate endDate ownerId pipelineId now).byStage
          name).weightedValue ≤
        ((generateForecast s startDate endDate ownerId pipelineId
            now).byStage name).totalValue) ∧
    (∀ name,
      ((generateForecast s startDate endDate ownerId pipelineId now).byOwner
          name).weightedValue ≤
        ((generateForecast s startDate endDate ownerId pipelineId
            now).byOwner name).totalValue) := by
  have hsel :
      ∀ d ∈ selectForecastDeals s startDate endDate ownerId pipelineId,
        0 ≤ d.value ∧ d.probability ≤ 100 := by
    intro d hd
    have hds := h d (List.mem_filter.mp hd).1
    exact ⟨hds.1, hds.2.2⟩
  refine ⟨?_, fun name => ?_, fun name => ?_⟩
  · exact weightedValue_le_totalValue _ hsel
  · exact weightedValue_le_totalValue _
      (fun d hd => hsel d (List.mem_filter.mp hd).1)
  · exact weightedValue_le_totalValue _
      (fun d hd => hsel d (List.mem_filter.mp hd).1)

/-- Witness for C7 at a concrete store. -/
theorem claim7_weighted_le_total_witness :
    (∀ d ∈ exStore.deals,
      0 ≤ d.value ∧ 0 ≤ d.probability ∧ d.probability ≤ 100) ∧
    (generateForecast exStore 0 100 none none 0).weightedValue ≤
      (generateForecast exStore 0 100 none none 0).totalValue := by
  have hyp : ∀ d ∈ exStore.deals,
      0 ≤ d.value ∧ 0 ≤ d.probability ∧ d.probability ≤ 100 := by
    intro d hd
    have hd' : d = exDeal := by simpa [exStore] using hd
    subst hd'
    exact ⟨by norm_num [exDeal], by norm_num [exDeal], by norm_num [exDeal]⟩
  exact ⟨hyp, (claim7_weighted_le_total exStore 0 100 none none 0 hyp).1⟩

/-- A deal's adjusted confidence is non-negative whenever its probability
is: every staleness/recency multiplier is a positive constant. -/
theorem dealConfidence_nonneg (now : Time) (d : Deal)
    (hp : 0 ≤ d.probability) : 0 ≤ dealConfidence now d := by
  have hp' : (0 : Rat) ≤ (d.probability : Rat) := by exact_mod_cast hp
  simp only [dealConfidence]
  split_ifs <;> nlinarith [hp']

/-- `calculateConfidence` lands in [0, 100] when every probability is
non-negative: each clamped summand lies in [0, 100], hence so does the
mean, hence so does its rounding. -/
theorem calculateConfidence_mem_range (now : Time) (deals : List Deal)
    (h : ∀ d ∈ deals, 0 ≤ d.probability) :
    0 ≤ calculateConfidence now deals ∧
      calculateConfidence now deals ≤ 100 := by
  unfold calculateConfidence
  by_cases hl : deals.length = 0
  · rw [if_pos hl]
    exact ⟨le_refl 0, by norm_num⟩
  · rw [if_neg hl]
    have hlen : (0 : Rat) < (deals.length : Rat) := by
      exact_mod_cast Nat.pos_of_ne_zero hl
    have hnn :
        0 ≤ (deals.map (fun d => min (dealConfidence now d) 100)).sum := by
      apply List.sum_nonneg
      intro x hx
      obtain ⟨d, hd, rfl⟩ := List.mem_map.mp hx
      exact le_min (dealConfidence_nonneg now d (h d hd)) (by norm_num)
    have hub : (deals.map (fun d => min (dealConfidence now d) 100)).sum ≤
        (deals.length : Rat) * 100 := by
      have hb : ∀ x ∈ deals.map (fun d => min (dealConfidence now d) 100),
          x ≤ (100 : Rat) := by
        intro x hx
        obtain ⟨d, hd, rfl⟩ := List.mem_map.mp hx
        exact min_le_right _ _
      calc (deals.map (fun d => min (dealConfidence now d) 100)).sum
          ≤ (deals.map (fun d => min (dealConfidence now d) 100)).length •
              (100 : Rat) := List.sum_le_card_nsmul _ _ hb
        _ = (deals.length : Rat) * 100 := by
            rw [List.length_map, nsmul_eq_mul]
    have hq0 : 0 ≤ (deals.map (fun d => min (dealConfidence now d) 100)).sum /
        (deals.length : Rat) := div_nonneg hnn (le_of_lt hlen)
    have hq1 : (deals.map (fun d => min (dealConfidence now d) 100)).sum /
        (deals.length : Rat) ≤ 100 := by
      rw [div_le_iff₀ hlen]
      linarith
    constructor
    · exact Int.le_floor.mpr (by push_cast; linarith)
    · have hfl : jsRound
          ((deals.map (fun d => min (dealConfidence now d) 100)).sum /
            (deals.length : Rat)) < 101 := by
        unfold jsRound
        apply Int.floor_lt.mpr
        push_cast
        linarith
      omega

/-- Claim C8: the forecast confidence lies in [0,100] whenever every deal's
probability lies in [0,100] (each per-deal adjusted confidence is clamped
to at most 100 before averaging), and `generateForecast` returns confidence
exactly 0 when the selected deal set is empty. -/
theorem claim8_confidence_range (s : Store) (startDate endDate : Time)
    (ownerId pipelineId : Option String) (now : Time)
    (h : ∀ d ∈ s.deals, 0 ≤ d.probability ∧ d.probability ≤ 100) :
    (0 ≤ (generateForecast s startDate endDate ownerId pipelineId
        now).confidence ∧
      (generateForecast s startDate endDate ownerId pipelineId
        now).confidence ≤ 100) ∧
    (selectForecastDeals s startDate endDate ownerId pipelineId = [] →
      (generateForecast s startDate endDate ownerId pipelineId
        now).confidence = 0) := by
  constructor
  · exact calculateConfidence_mem_range now
      (selectForecastDeals s startDate endDate ownerId pipelineId)
      (fun d hd => (h d (List.mem_filter.mp hd).1).1)
  · intro he
    show calculateConfidence now
      (selectForecastDeals s startDate endDate ownerId pipelineId) = 0
    rw [he]
    rfl

/-- Witness for C8 at a concrete store. -/
theorem claim8_confidence_range_witness :
    (∀ d ∈ exStore.deals, 0 ≤ d.probability ∧ d.probability ≤ 100) ∧
    ((0 ≤ (generateForecast exStore 0 100 none none 0).confidence ∧
      (generateForecast exStore 0 100 none none 0).confidence ≤ 100) ∧
    (selectForecastDeals exStore 0 100 none none = [] →
      (generateForecast exStore 0 100 none none 0).confidence = 0)) := by
  have hyp : ∀ d ∈ exStore.deals,
      0 ≤ d.probability ∧ d.probability ≤ 100 := by
    intro d hd
    have hd' : d = exDeal := by simpa [exStore] using hd
    subst hd'
    exact ⟨by decide, by decide⟩
  exact ⟨hyp, claim8_confidence_range exStore 0 100 none none 0 hyp⟩

/-- Adjacent pairs `(l[i], l[i+1])` of a list, in order: the iteration
space of the `for (let i = 0; i < stages.length - 1; i++)` loop. -/
def adjacentPairs {α : Type} : List α → List (α × α)
  | a :: b :: rest => (a, b) :: adjacentPairs (b :: rest)
  | _ => []

/-- `adjacentPairs` has one element per adjacent pair. -/
theorem adjacentPairs_length {α : Type} (l : List α) :
    (adjacentPairs l).length = l.length - 1 := by
  induction l with
  | nil => rfl
  | cons a t ih =>
    cases t with
    | nil => rfl
    | cons b rest =>
      simp only [adjacentPairs, List.length_cons] at ih ⊢
      omega

/-- One entry of the `ConversionRates` record
(`from`/`to` are `src`/`dst` here). -/
structure ConversionEntry where
  key : String
  src : String
  dst : String
  rate : Rat
  deals : Nat
deriving DecidableEq, Repr

/-- The deal selection of `getConversionRates`: deals of the pipeline whose
`actualCloseDate` lies inside the trailing window. -/
def closedDealsInWindow (s : Store) (pipelineId : String)
    (startDate endDate : Time) : List Deal :=
  s.deals.filter (fun d =>
    d.pipelineId == pipelineId &&
    (match d.actualCloseDate with
     | some t => decide (startDate ≤ t) && decide (t ≤ endDate)
     | none => false))

/-- The pipeline's stages ordered by `sortOrder` ascending
(`orderBy: { sortOrder: 'asc' }`, a stable sort). -/
def pipelineStages (s : Store) (pipelineId : String) : List PipelineStage :=
  List.insertionSort (fun a b => a.sortOrder ≤ b.sortOrder)
    (s.stages.filter (fun st => st.pipelineId == pipelineId))

/-- The loop body of `getConversionRates`: the entry computed for one
adjacent stage pair, with `rate = (next count / current count) * 100`, or
0 when the current count is 0. -/
def conversionEntryFor (deals : List Deal)
    (dealPassedThroughStage : Deal → String → Bool)
    (pr : PipelineStage × PipelineStage) : ConversionEntry :=
  let currentStageDeals :=
    deals.filter (fun d => dealPassedThroughStage d pr.1.id)
  let nextStageDeals :=
    deals.filter (fun d => dealPassedThroughStage d pr.2.id)
  { key := pr.1.name ++ "_to_" ++ pr.2.name,
    src := pr.1.name,
    dst := pr.2.name,
    rate :=
      if currentStageDeals.length > 0 then
        ((nextStageDeals.length : Rat) / (currentStageDeals.length : Rat))
          * 100
      else 0,
    deals := currentStageDeals.length }

/-- `ForecastingService.getConversionRates`. The private helper
`dealPassedThroughStage` has no implementation anywhere in the repository
(the spec defers it to an external historical-tracking collaborator), so it
is a parameter here; the trailing-12-months window is likewise passed as
explicit bounds. The result is the source's string-keyed `ConversionRates`
object, modelled as a function from the key; the loop's
`conversionRates[key] = entry` assignment is the overwriting fold step, so
a later adjacent pair whose key collides with an earlier one's (possible
when stage names repeat inside a pipeline) overwrites it — last write
wins, exactly as JavaScript object assignment does. -/
def getConversionRates (s : Store) (pipelineId : String)
    (dealPassedThroughStage : Deal → String → Bool)
    (startDate endDate : Time) : String → Option ConversionEntry :=
  let deals := closedDealsInWindow s pipelineId startDate endDate
  let stages := pipelineStages s pipelineId
  ((adjacentPairs stages).map
      (conversionEntryFor deals dealPassedThroughStage)).foldl
    (fun acc entry => fun k => if k == entry.key then some entry else acc k)
    (fun _ => none)

/-- An overwriting fold of keyed entries, read at a key, returns the last
entry written with that key: the first hit in the reversed list. -/
theorem overwriteFold_apply (entries : List ConversionEntry)
    (init : String → Option ConversionEntry) (k : String) :
    (entries.foldl
      (fun acc entry => fun q => if q == entry.key then some entry
        else acc q)
      init) k
    = (match entries.reverse.find? (fun e => e.key == k) with
       | some e => some e
       | none => init k) := by
  induction entries generalizing init with
  | nil => simp
  | cons e t ih =>
    simp only [List.foldl_cons, List.reverse_cons]
    rw [ih, List.find?_append]
    cases hf : t.reverse.find? (fun x => x.key == k) with
    | some x => simp [Option.or]
    | none =>
      by_cases hk : k = e.key
      · simp [List.find?, hk, Option.or]
      · have h1 : (k == e.key) = false := by simp [hk]
        have h2 : (e.key == k) = false := by simp [Ne.symm hk]
        simp [List.find?, h1, h2, Option.or]

/-- Fixture: three stages of one pipeline that all carry the name "A";
the schema's only uniqueness constraint is on (pipelineId, sortOrder), so
duplicate stage names are permitted. -/
def stA0 : PipelineStage :=
  { id := "t0", pipelineId := "p2", name := "A", probability := 10,
    sortOrder := 0, rottenDays := none }

/-- Fixture: second stage named "A". -/
def stA1 : PipelineStage :=
  { id := "t1", pipelineId := "p2", name := "A", probability := 20,
    sortOrder := 1, rottenDays := none }

/-- Fixture: third stage named "A". -/
def stA2 : PipelineStage :=
  { id := "t2", pipelineId := "p2", name := "A", probability := 30,
    sortOrder := 2, rottenDays := none }

/-- Fixture: a deal closed inside the analysis window. -/
def exDealClosed : Deal :=
  { id := "d6", value := 100, probability := 50, pipelineId := "p2",
    stageId := "t2", expectedCloseDate := 0, actualCloseDate := some 50,
    ownerId := "o1", ownerName := none, contactId := "c1",
    stageChangedAt := 0, updatedAt := 0 }

/-- Fixture: store for the duplicate-stage-name counterexample. -/
def exStoreDup : Store :=
  { deals := [exDealClosed], stages := [stA0, stA1, stA2],
    dealProducts := [], contacts := [] }

/-- Fixture: the stage-visit predicate for the counterexample: the closed
deal passed through stages "t1" and "t2" but not "t0". -/
def exPassed : Deal → String → Bool := fun _ stageId =>
  stageId == "t1" || stageId == "t2"

/-- Counterexample to claim C9 as stated: with three stages all named "A"
there are two adjacent pairs, both keyed "A_to_A". The first pair's entry
(zero deals passed through stage t0, so its `deals` count is 0) is
overwritten in the string-keyed `ConversionRates` object by the second
pair's entry (count 1), so the output does NOT hold one entry per adjacent
stage pair: the only entry stored under the first pair's key carries the
second pair's counts. -/
theorem claim9_counterexample :
    (adjacentPairs (pipelineStages exStoreDup "p2")).length = 2 ∧
    (stA0, stA1) ∈ adjacentPairs (pipelineStages exStoreDup "p2") ∧
    stA0.name ++ "_to_" ++ stA1.name = "A_to_A" ∧
    (conversionEntryFor (closedDealsInWindow exStoreDup "p2" 0 100) exPassed
      (stA0, stA1)).deals = 0 ∧
    (∃ e, getConversionRates exStoreDup "p2" exPassed 0 100 "A_to_A"
        = some e ∧ e.deals = 1) ∧
    (∀ e, getConversionRates exStoreDup "p2" exPassed 0 100 "A_to_A"
        = some e → e.deals ≠ 0) := by
  refine ⟨by decide, by decide, by decide, by decide,
    ⟨_, rfl, by decide⟩, ?_⟩
  intro e he
  obtain ⟨x, hx, hxd⟩ : ∃ x,
      getConversionRates exStoreDup "p2" exPassed 0 100 "A_to_A" = some x ∧
      x.deals = 1 := ⟨_, rfl, by decide⟩
  rw [hx] at he
  injection he with hxe
  subst hxe
  omega

/-- Claim C9 (amended): `getConversionRates(pipelineId)` computes one entry
per adjacent stage pair (in sortOrder), keyed `"<FromName>_to_<ToName>"`,
and assigns it into a string-keyed record in which a later pair whose key
collides with an earlier one's (possible when stage names repeat inside a
pipeline) overwrites it — last write wins, so the record can hold fewer
entries than adjacent pairs. Hence: the record at any key is the LAST
adjacent pair's entry with that key; the key of every adjacent pair is
populated; and every stored entry comes from an adjacent pair with exactly
that key, with rate = (count through the later stage / count through the
earlier stage) × 100 for that pair, and rate exactly 0 when zero deals
passed through the earlier stage — never NaN and never a division
error. -/
theorem claim9_conversionRates_amended (s : Store) (pipelineId : String)
    (dealPassedThroughStage : Deal → String → Bool)
    (startDate endDate : Time) (k : String) :
    getConversionRates s pipelineId dealPassedThroughStage startDate endDate
        k =
      ((adjacentPairs (pipelineStages s pipelineId)).map
        (conversionEntryFor
          (closedDealsInWindow s pipelineId startDate endDate)
          dealPassedThroughStage)).reverse.find? (fun e => e.key == k) ∧
    (∀ pr ∈ adjacentPairs (pipelineStages s pipelineId),
      ∃ e, getConversionRates s pipelineId dealPassedThroughStage startDate
        endDate (pr.1.name ++ "_to_" ++ pr.2.name) = some e) ∧
    (∀ e, getConversionRates s pipelineId dealPassedThroughStage startDate
        endDate k = some e →
      e.key = k ∧
      ∃ pr ∈ adjacentPairs (pipelineStages s pipelineId),
        e = conversionEntryFor
          (closedDealsInWindow s pipelineId startDate endDate)
          dealPassedThroughStage pr ∧
        (e.deals = 0 → e.rate = 0) ∧
        (0 < e.deals → e.rate =
          ((((closedDealsInWindow s pipelineId startDate endDate).filter
              (fun d => dealPassedThroughStage d pr.2.id)).length : Rat) /
            (e.deals : Rat)) * 100)) := by
  have hrec : ∀ q, getConversionRates s pipelineId dealPassedThroughStage
      startDate endDate q =
      ((adjacentPairs (pipelineStages s pipelineId)).map
        (conversionEntryFor
          (closedDealsInWindow s pipelineId startDate endDate)
          dealPassedThroughStage)).reverse.find? (fun e => e.key == q) := by
    intro q
    show (((adjacentPairs (pipelineStages s pipelineId)).map
        (conversionEntryFor
          (closedDealsInWindow s pipelineId startDate endDate)
          dealPassedThroughStage)).foldl
      (fun acc entry => fun x => if x == entry.key then some entry
        else acc x)
      (fun _ => none)) q = _
    rw [overwriteFold_apply]
    cases hf : ((adjacentPairs (pipelineStages s pipelineId)).map
        (conversionEntryFor
          (closedDealsInWindow s pipelineId startDate endDate)
          dealPassedThroughStage)).reverse.find? (fun e => e.key == q) <;>
      simp
  refine ⟨hrec k, ?_, ?_⟩
  · intro pr hpr
    rw [hrec]
    rw [← Option.isSome_iff_exists, List.find?_isSome]
    refine ⟨conversionEntryFor
      (closedDealsInWindow s pipelineId startDate endDate)
      dealPassedThroughStage pr, ?_, ?_⟩
    · rw [List.mem_reverse]
      exact List.mem_map_of_mem _ hpr
    · simp [conversionEntryFor]
  · intro e he
    rw [hrec] at he
    have hmem := List.mem_of_find?_eq_some he
    have hp := List.find?_some he
    rw [List.mem_reverse] at hmem
    obtain ⟨pr, hpr, rfl⟩ := List.mem_map.mp hmem
    refine ⟨by simpa using hp, pr, hpr, rfl, ?_, ?_⟩
    · intro h0
      dsimp only [conversionEntryFor] at h0 ⊢
      rw [if_neg (by omega)]
    · intro h0
      dsimp only [conversionEntryFor] at h0 ⊢
      rw [if_pos (by omega)]

/-- Fixture: a store with two stages and no deals. -/
def exStoreConv : Store :=
  { deals := [], stages := [exStageOpen, exStageWon],
    dealProducts := [], contacts := [] }

/-- Witness for the amended C9 at a concrete store: the adjacent pair
(Qualified, Closed Won) populates its key in the record. -/
theorem claim9_conversionRates_amended_witness :
    (exStageOpen, exStageWon) ∈
      adjacentPairs (pipelineStages exStoreConv "p1") ∧
    (∃ e, getConversionRates exStoreConv "p1" (fun _ _ => false) 0 100
      ((exStageOpen, exStageWon).1.name ++ "_to_" ++
        (exStageOpen, exStageWon).2.name) = some e) :=
  ⟨by decide,
   (claim9_conversionRates_amended exStoreConv "p1" (fun _ _ => false) 0 100
      "").2.1 (exStageOpen, exStageWon) (by decide)⟩

/-- A recommended next action (`NextAction` of the Contact module). -/
structure NextAction where
  type : String
  priority : String
  reason : String
deriving DecidableEq, Repr

/-- `ContactLifecycleService.calculateNextActions`: returns `[]` for a
missing contact (no NotFound error); otherwise a single `switch` on
`lifecycleStage` in which each arm pushes at most one action. The private
helper `daysSince` has no implementation in the repository, so it is a
parameter. -/
def calculateNextActions (s : Store) (daysSince : Option Time → Int)
    (contactId : String) : List NextAction :=
  match findContact s contactId with
  | none => []
  | some contact =>
    let daysSinceLastContact := daysSince contact.lastContactedAt
    match contact.lifecycleStage with
    | .LEAD =>
      if daysSinceLastContact > 3 then
        [{ type := "FOLLOW_UP_CALL", priority := "HIGH",
           reason := "New lead needs qualification call" }]
      else []
    | .MARKETING_QUALIFIED =>
      [{ type := "SALES_HANDOFF", priority := "HIGH",
         reason := "Ready for sales qualification" }]
    | .SALES_QUALIFIED =>
      if contact.dealsCount == 0 then
        [{ type := "CREATE_OPPORTUNITY", priority := "MEDIUM",
           reason := "Qualified lead needs opportunity" }]
      else []
    | .CUSTOMER =>
      if daysSinceLastContact > 30 then
        [{ type := "CHECK_IN", priority := "LOW",
           reason := "Regular customer check-in" }]
      else []
    | _ => []

/-- Claim C10: `calculateNextActions(contactId)` for a contact id that does
not exist returns the empty action list rather than failing with NotFound,
and for every contact it returns at most one action per call (each
lifecycle stage has at most one rule). -/
theorem claim10_nextActions (s : Store) (daysSince : Option Time → Int)
    (contactId : String) :
    (findContact s contactId = none →
      calculateNextActions s daysSince contactId = []) ∧
    (calculateNextActions s daysSince contactId).length ≤ 1 := by
  constructor
  · intro h
    unfold calculateNextActions
    rw [h]
  · unfold calculateNextActions
    cases findContact s contactId with
    | none => simp
    | some c =>
      obtain ⟨cid, ls, st, lca, dc⟩ := c
      cases ls <;> dsimp only <;> first
        | (split_ifs <;> decide)
        | decide

/-- Witness for C10 at a concrete store with no contacts. -/
theorem claim10_nextActions_witness :
    findContact exStore "ghost" = none ∧
    calculateNextActions exStore (fun _ => 0) "ghost" = [] ∧
    (calculateNextActions exStore (fun _ => 0) "ghost").length ≤ 1 :=
  ⟨rfl, (claim10_nextActions exStore (fun _ => 0) "ghost").1 rfl,
   (claim10_nextActions exStore (fun _ => 0) "ghost").2⟩

end CRM
